import Mathlib

set_option autoImplicit false

/-!
Shallow embedding of the pubsub-to-pubsub relay.
Sources: the root command file (package cmd, constants, Config, RootCmd.Run,
configureFlag, initConfig) and util/logger.go (SetLogger).
External collaborators (credential parsing, client construction, the
subscription receive machinery, the log library) are represented by explicit
inputs or small models; every definition mirrors the control flow of the Go
source line by line.
-/

namespace PubsubToPubsub

/-- Default parameter values from the constant block of the root command file. -/
def defaultLogLevel : String := "debug"

/-- Default log format from the constant block of the root command file. -/
def defaultLogFormat : String := "json"

/-- The package-level constant pubSubMaxOutstandingMessages = 10. -/
def pubSubMaxOutstandingMessages : Nat := 10

/-- The Config struct: eight string fields, populated once by initConfig. -/
structure Config where
  logFormat : String
  logLevel : String
  fromGoogleCloudProject : String
  toGoogleCloudProject : String
  fromGoogleApplicationCredentials : String
  toGoogleApplicationCredentials : String
  pubSubSubscription : String
  pubSubDestinationTopic : String
deriving DecidableEq, Repr

/-- A pubsub message: opaque payload plus attributes. The delivery handle is
implicit: ack and nack show up as actions in the handler trace. -/
structure Message where
  data : String
  attributes : List (String × String)
deriving DecidableEq, Repr

/-- Observable actions of one invocation of the receive handler. -/
inductive Action where
  | publish (m : Message)
  | ack
  | nack
  | logError (s : String)
deriving DecidableEq, Repr

/-- The receive callback passed to sub.Receive: publish the message unchanged
to the destination topic, wait for the result; on success Ack, on error log at
error level and Nack. The argument publishGet models topic.Publish followed by
Get on the returned result. -/
def receiveHandler (publishGet : Message → Except String String) (msg : Message) :
    List Action :=
  match publishGet msg with
  | Except.ok _ => [Action.publish msg, Action.ack]
  | Except.error e =>
      [Action.publish msg, Action.logError ("err when inserting data: " ++ e), Action.nack]

/-- The receive loop applies the handler to each delivered message; the handler
body contains no exit or early return, so processing continues after a
per-message publish error. -/
def receiveLoop (publishGet : Message → Except String String) (msgs : List Message) :
    List (List Action) :=
  msgs.map (receiveHandler publishGet)

/-- Test whether an action is an Ack. -/
def isAck : Action → Bool
  | Action.ack => true
  | _ => false

/-- Test whether an action is a Nack. -/
def isNack : Action → Bool
  | Action.nack => true
  | _ => false

/-- Test whether an action is a publish. -/
def isPublish : Action → Bool
  | Action.publish _ => true
  | _ => false

/-- Number of Ack actions in a handler trace. -/
def countAck (tr : List Action) : Nat := tr.countP isAck

/-- Number of Nack actions in a handler trace. -/
def countNack (tr : List Action) : Nat := tr.countP isNack

/-- Number of publish attempts in a handler trace. -/
def countPublish (tr : List Action) : Nat := tr.countP isPublish

/-- Results of the external calls made by RootCmd.Run, in source order:
CredentialsFromJSON for each side, NewClient for each side, and the error
value returned by sub.Receive (none models a nil error). -/
structure Env where
  fromCredsResult : Except String Unit
  toCredsResult : Except String Unit
  fromClientResult : Except String Unit
  toClientResult : Except String Unit
  receiveErr : Option String
deriving Repr

/-- How the Run function terminates: a direct Fprintf to stderr followed by
os.Exit(1), a logrus fatal log (which exits with status 1), or a normal return
from Run (the process then exits with status 0). -/
inductive Outcome where
  | exitStderr (msg : String)
  | exitFatal (msg : String)
  | normalReturn
deriving DecidableEq, Repr

/-- Observable result of RootCmd.Run: how it terminated, whether the NewClient
calls were reached, whether the subscription was created and Receive called,
and the value assigned to ReceiveSettings.MaxOutstandingMessages when it was. -/
structure RunResult where
  outcome : Outcome
  clientsCreated : Bool
  subscriptionCreated : Bool
  maxOutstandingMessages : Option Nat
deriving DecidableEq, Repr

/-- RootCmd.Run, after logging the configuration at debug level. Mirrors the
Go control flow exactly. Note the two err-shadowing points of the source: the
variable err assigned by the from-side CredentialsFromJSON call is immediately
reassigned by the to-side call before the single nil check, so only the to-side
parse result is inspected; the same pattern repeats for the two NewClient
calls. The final check inspects only the error returned by sub.Receive. -/
def run (cfg : Config) (env : Env) : RunResult :=
  if cfg.fromGoogleCloudProject = "" then
    ⟨Outcome.exitStderr "FROM_GOOGLE_CLOUD_PROJECT variable must be set.\n", false, false, none⟩
  else if cfg.toGoogleCloudProject = "" then
    ⟨Outcome.exitStderr "TO_GOOGLE_CLOUD_PROJECT variable must be set.\n", false, false, none⟩
  else if cfg.pubSubSubscription = "" then
    ⟨Outcome.exitStderr "PUBSUB_SUBSCRIPTION variable must be set.\n", false, false, none⟩
  else if cfg.pubSubDestinationTopic = "" then
    ⟨Outcome.exitStderr "PUBSUB_DESTINATION_TOPIC variable must be set.\n", false, false, none⟩
  else
    match env.toCredsResult with
    | Except.error e =>
        ⟨Outcome.exitFatal ("Could not find credentials: " ++ e), false, false, none⟩
    | Except.ok _ =>
        match env.toClientResult with
        | Except.error e =>
            ⟨Outcome.exitFatal ("Could not create pubsub Client: " ++ e), true, false, none⟩
        | Except.ok _ =>
            match env.receiveErr with
            | some e =>
                ⟨Outcome.exitFatal e, true, true, some pubSubMaxOutstandingMessages⟩
            | none =>
                ⟨Outcome.normalReturn, true, true, some pubSubMaxOutstandingMessages⟩

/-- Modelled from the spec: the flow control of the subscriber library, which
is not part of this repository. The receive mechanism invokes the per-message
handler concurrently, bounded by ReceiveSettings.MaxOutstandingMessages: a new
delivery may start only while the number of outstanding (delivered but not yet
acknowledged) messages is below the bound, and finishing a delivery decrements
the count. SubReach bound n holds when a schedule respecting this rule can
have n messages outstanding. -/
inductive SubReach (bound : Nat) : Nat → Prop where
  | init : SubReach bound 0
  | start (n : Nat) : SubReach bound n → n < bound → SubReach bound (n + 1)
  | finish (n : Nat) : SubReach bound (n + 1) → SubReach bound n

/-- The flags registered by init via configureFlag, with their default values,
in registration order. -/
def registeredFlags : List (String × String) :=
  [("log-format", defaultLogFormat),
   ("log-level", defaultLogLevel),
   ("from-google-cloud-project", ""),
   ("to-google-cloud-project", ""),
   ("from-google-application-credentials-json", ""),
   ("to-google-application-credentials-json", ""),
   ("pubsub-subscription", ""),
   ("pubsub-destination-topic", "")]

/-- Default value registered for a flag name (empty for an unknown name). -/
def flagDefault (key : String) : String :=
  match registeredFlags.lookup key with
  | some v => v
  | none => ""

/-- Modelled from the spec: the value resolution of the viper library (absent
from this repository) for a key bound to a command-line flag via BindPFlag, as
configureFlag does for every key: a flag explicitly set on the command line
wins, otherwise the value from the config file, otherwise the default that
configureFlag registered for the flag. flagSet gives the explicitly set flags,
fileCfg the keys present in the config file. -/
def viperGetString (flagSet fileCfg : String → Option String) (key : String) : String :=
  match flagSet key with
  | some v => v
  | none =>
    match fileCfg key with
    | some v => v
    | none => flagDefault key

/-- initConfig: populate every field of the Config struct from the resolved
value of its parameter name. -/
def initConfig (flagSet fileCfg : String → Option String) : Config :=
  { logFormat := viperGetString flagSet fileCfg "log-format",
    logLevel := viperGetString flagSet fileCfg "log-level",
    fromGoogleCloudProject := viperGetString flagSet fileCfg "from-google-cloud-project",
    toGoogleCloudProject := viperGetString flagSet fileCfg "to-google-cloud-project",
    fromGoogleApplicationCredentials :=
      viperGetString flagSet fileCfg "from-google-application-credentials-json",
    toGoogleApplicationCredentials :=
      viperGetString flagSet fileCfg "to-google-application-credentials-json",
    pubSubSubscription := viperGetString flagSet fileCfg "pubsub-subscription",
    pubSubDestinationTopic := viperGetString flagSet fileCfg "pubsub-destination-topic" }

/-- The logrus log levels. -/
inductive Level where
  | panic
  | fatal
  | error
  | warn
  | info
  | debug
  | trace
deriving DecidableEq, Repr

/-- ASCII lowercasing of a string, modelling the strings.ToLower call inside
logrus.ParseLevel. -/
def strLower (s : String) : String := String.mk (s.data.map Char.toLower)

/-- logrus.ParseLevel: case-insensitive match of the known level names,
otherwise an error naming the rejected string. -/
def parseLevel (lvl : String) : Except String Level :=
  match strLower lvl with
  | "panic" => Except.ok Level.panic
  | "fatal" => Except.ok Level.fatal
  | "error" => Except.ok Level.error
  | "warn" => Except.ok Level.warn
  | "warning" => Except.ok Level.warn
  | "info" => Except.ok Level.info
  | "debug" => Except.ok Level.debug
  | "trace" => Except.ok Level.trace
  | _ => Except.error ("not a valid logrus Level: " ++ lvl)

/-- The two formatters SetLogger can install, with the options it sets. -/
inductive Formatter where
  | jsonFormatter (fieldKeyLevel fieldKeyMsg : String)
  | textFormatter (quoteEmptyFields fullTimestamp forceColors disableLevelTruncation : Bool)
deriving DecidableEq, Repr

/-- Global logger state after SetLogger: installed formatter, level, and the
error messages logged while configuring. -/
structure LoggerState where
  formatter : Formatter
  level : Level
  errorLogs : List String
deriving DecidableEq, Repr

/-- util.SetLogger ll lf: install the JSON formatter with remapped level and
message field keys when lf is json, the text formatter otherwise; then parse
ll, taking the parsed level on success, and on a parse error logging an error
and falling back to the info level. -/
def SetLogger (ll lf : String) : LoggerState :=
  let fmtr : Formatter :=
    match lf with
    | "json" => Formatter.jsonFormatter "severity" "message"
    | _ => Formatter.textFormatter true true true true
  match parseLevel ll with
  | Except.ok l => ⟨fmtr, l, []⟩
  | Except.error e =>
      ⟨fmtr, Level.info, ["log level is not ok, setting to info by default : " ++ e]⟩

/-- A configuration whose required fields are all populated; used as a concrete
input in several theorems. -/
def validCfg : Config :=
  ⟨"json", "debug", "project-a", "project-b", "creds-a", "creds-b", "sub-a", "topic-b"⟩

/-- An environment in which every external call succeeds and Receive ends with
an error, as it does when the broker becomes unreachable. -/
def okEnv : Env :=
  ⟨Except.ok (), Except.ok (), Except.ok (), Except.ok (), some "rpc error: code = Unavailable"⟩

/-- Claim C1: for every message delivered to the relay handler, if the publish
of that message to the destination topic succeeds, then ack is invoked on the
source message exactly once and nack is never invoked on it. -/
theorem publish_success_ack_once (pub : Message → Except String String) (msg : Message)
    (id : String) (h : pub msg = Except.ok id) :
    countAck (receiveHandler pub msg) = 1 ∧ countNack (receiveHandler pub msg) = 0 := by
  simp [receiveHandler, h, countAck, countNack, isAck, isNack]

/-- Witness for C1 at a concrete message and an always-succeeding publish. -/
theorem publish_success_ack_once_witness :
    countAck (receiveHandler (fun _ => Except.ok "id") ⟨"x", []⟩) = 1 ∧
    countNack (receiveHandler (fun _ => Except.ok "id") ⟨"x", []⟩) = 0 :=
  publish_success_ack_once (fun _ => Except.ok "id") ⟨"x", []⟩ "id" rfl

/-- Claim C2: for every message delivered to the relay handler, if the publish
fails, then nack is invoked exactly once, ack never, the error is logged at
error level, the publish is not retried locally, and the relay loop continues
processing further messages. -/
theorem publish_failure_nack_once (pub : Message → Except String String) (msg : Message)
    (e : String) (h : pub msg = Except.error e) :
    countNack (receiveHandler pub msg) = 1 ∧
    countAck (receiveHandler pub msg) = 0 ∧
    Action.logError ("err when inserting data: " ++ e) ∈ receiveHandler pub msg ∧
    countPublish (receiveHandler pub msg) = 1 ∧
    ∀ rest : List Message,
      receiveLoop pub (msg :: rest) = receiveHandler pub msg :: receiveLoop pub rest := by
  refine ⟨?_, ?_, ?_, ?_, ?_⟩ <;>
    simp [receiveHandler, receiveLoop, h, countAck, countNack, countPublish,
      isAck, isNack, isPublish]

/-- Witness for C2 at a concrete message and an always-failing publish. -/
theorem publish_failure_nack_once_witness :
    countNack (receiveHandler (fun _ => Except.error "unavailable") ⟨"y", []⟩) = 1 ∧
    countAck (receiveHandler (fun _ => Except.error "unavailable") ⟨"y", []⟩) = 0 ∧
    Action.logError ("err when inserting data: " ++ "unavailable") ∈
      receiveHandler (fun _ => Except.error "unavailable") ⟨"y", []⟩ ∧
    countPublish (receiveHandler (fun _ => Except.error "unavailable") ⟨"y", []⟩) = 1 ∧
    ∀ rest : List Message,
      receiveLoop (fun _ => Except.error "unavailable") (⟨"y", []⟩ :: rest) =
        receiveHandler (fun _ => Except.error "unavailable") ⟨"y", []⟩ ::
          receiveLoop (fun _ => Except.error "unavailable") rest :=
  publish_failure_nack_once (fun _ => Except.error "unavailable") ⟨"y", []⟩ "unavailable" rfl

/-- Claim C3: on every branch of the handler exactly one of ack and nack is
invoked on the delivered message before the handler returns, and ack is
invoked at most once per delivery. -/
theorem handler_exactly_one_terminal (pub : Message → Except String String) (msg : Message) :
    countAck (receiveHandler pub msg) + countNack (receiveHandler pub msg) = 1 ∧
    countAck (receiveHandler pub msg) ≤ 1 := by
  cases h : pub msg <;> simp [receiveHandler, h, countAck, countNack, isAck, isNack]

/-- Claim C7: every message passed to topic.Publish by the handler is the
received message itself, payload and attributes unchanged. -/
theorem publish_is_source_message (pub : Message → Except String String) (msg m : Message)
    (h : Action.publish m ∈ receiveHandler pub msg) : m = msg := by
  cases hp : pub msg <;> simp [receiveHandler, hp] at h <;> exact h

/-- Witness for C7: the concrete published message equals the received one. -/
theorem publish_is_source_message_witness :
    (⟨"x", [("k", "v")]⟩ : Message) = ⟨"x", [("k", "v")]⟩ :=
  publish_is_source_message (fun _ => Except.ok "id") ⟨"x", [("k", "v")]⟩ ⟨"x", [("k", "v")]⟩
    (by simp [receiveHandler])

/-- An environment in which the source-side credential parse fails, as it does
for malformed credential bytes, while every to-side call succeeds. -/
def badFromCredsEnv : Env :=
  ⟨Except.error "unexpected end of JSON input", Except.ok (), Except.ok (), Except.ok (),
   some "rpc error: code = Unavailable"⟩

/-- Claim C4 is violated by the code: the variable err assigned by the
from-side CredentialsFromJSON call is overwritten by the to-side call before
the single nil check, so a from-side credential failure with a to-side success
is never logged and never terminates the process; Run creates both clients,
creates the subscription and enters the relay loop anyway. -/
theorem from_creds_error_swallowed :
    badFromCredsEnv.fromCredsResult = Except.error "unexpected end of JSON input" ∧
    (run validCfg badFromCredsEnv).clientsCreated = true ∧
    (run validCfg badFromCredsEnv).subscriptionCreated = true ∧
    (run validCfg badFromCredsEnv).outcome ≠
      Outcome.exitFatal ("Could not find credentials: " ++ "unexpected end of JSON input") :=
  ⟨rfl, rfl, rfl, by decide⟩

/-- Counterexample to claim C5: a configuration whose source-credential field
is the empty string passes every startup field check; the process does not
write to stderr and terminate at that stage but goes on to create both clients
and the subscription (the realistic parse failure of the empty credential
bytes is itself swallowed by the err overwrite). -/
theorem empty_credentials_not_checked :
    Config.fromGoogleApplicationCredentials
        ⟨"json", "debug", "project-a", "project-b", "", "creds-b", "sub-a", "topic-b"⟩ = "" ∧
    (run ⟨"json", "debug", "project-a", "project-b", "", "creds-b", "sub-a", "topic-b"⟩
        badFromCredsEnv).clientsCreated = true ∧
    (run ⟨"json", "debug", "project-a", "project-b", "", "creds-b", "sub-a", "topic-b"⟩
        badFromCredsEnv).subscriptionCreated = true := by
  decide

/-- Claim C5 amended: only the four fields source project, destination
project, subscription name and destination topic name are checked for
emptiness; when any of them is empty the process writes to stderr and exits
non-zero before any client or subscription is created. Empty credential
strings are not checked at this stage. -/
theorem required_field_empty_exits (cfg : Config) (env : Env)
    (h : cfg.fromGoogleCloudProject = "" ∨ cfg.toGoogleCloudProject = "" ∨
      cfg.pubSubSubscription = "" ∨ cfg.pubSubDestinationTopic = "") :
    (∃ m, (run cfg env).outcome = Outcome.exitStderr m) ∧
    (run cfg env).clientsCreated = false ∧
    (run cfg env).subscriptionCreated = false := by
  unfold run
  split_ifs with h1 h2 h3 h4
  · exact ⟨⟨_, rfl⟩, rfl, rfl⟩
  · exact ⟨⟨_, rfl⟩, rfl, rfl⟩
  · exact ⟨⟨_, rfl⟩, rfl, rfl⟩
  · exact ⟨⟨_, rfl⟩, rfl, rfl⟩
  · rcases h with h | h | h | h
    exacts [absurd h h1, absurd h h2, absurd h h3, absurd h h4]

/-- Witness for the amended C5 at a configuration with an empty source
project. -/
theorem required_field_empty_exits_witness :
    (∃ m, (run ⟨"json", "debug", "", "project-b", "creds-a", "creds-b", "sub-a", "topic-b"⟩
        okEnv).outcome = Outcome.exitStderr m) ∧
    (run ⟨"json", "debug", "", "project-b", "creds-a", "creds-b", "sub-a", "topic-b"⟩
        okEnv).clientsCreated = false ∧
    (run ⟨"json", "debug", "", "project-b", "creds-a", "creds-b", "sub-a", "topic-b"⟩
        okEnv).subscriptionCreated = false :=
  required_field_empty_exits
    ⟨"json", "debug", "", "project-b", "creds-a", "creds-b", "sub-a", "topic-b"⟩
    okEnv (Or.inl rfl)

/-- Counterexample to claim C6: the outstanding-message bound used by the
relay is not a field of the configuration record: at a configuration whose
every field is the string x, the relay still sets the bound to 10, the value
of the package constant pubSubMaxOutstandingMessages. -/
theorem bound_not_a_config_field :
    (run ⟨"x", "x", "x", "x", "x", "x", "x", "x"⟩ okEnv).maxOutstandingMessages = some 10 ∧
    pubSubMaxOutstandingMessages = 10 ∧
    Config.logFormat ⟨"x", "x", "x", "x", "x", "x", "x", "x"⟩ = "x" ∧
    Config.logLevel ⟨"x", "x", "x", "x", "x", "x", "x", "x"⟩ = "x" ∧
    Config.fromGoogleCloudProject ⟨"x", "x", "x", "x", "x", "x", "x", "x"⟩ = "x" ∧
    Config.toGoogleCloudProject ⟨"x", "x", "x", "x", "x", "x", "x", "x"⟩ = "x" ∧
    Config.fromGoogleApplicationCredentials ⟨"x", "x", "x", "x", "x", "x", "x", "x"⟩ = "x" ∧
    Config.toGoogleApplicationCredentials ⟨"x", "x", "x", "x", "x", "x", "x", "x"⟩ = "x" ∧
    Config.pubSubSubscription ⟨"x", "x", "x", "x", "x", "x", "x", "x"⟩ = "x" ∧
    Config.pubSubDestinationTopic ⟨"x", "x", "x", "x", "x", "x", "x", "x"⟩ = "x" := by
  decide

/-- In the modelled subscriber flow control the number of outstanding messages
never exceeds the configured bound. -/
theorem subReach_le_bound (bound n : Nat) (h : SubReach bound n) : n ≤ bound := by
  induction h with
  | init => exact Nat.zero_le bound
  | start m hm hlt ih => exact hlt
  | finish m hm ih => exact Nat.le_of_succ_le ih

/-- Claim C6 amended: whenever Run reaches the subscription, the bound it
assigns to ReceiveSettings.MaxOutstandingMessages is the package constant
pubSubMaxOutstandingMessages, independent of the configuration record, and
under the modelled subscriber flow control the number of outstanding messages
never exceeds that bound. -/
theorem bound_constant_and_delivery_bounded (cfg : Config) (env : Env)
    (h : (run cfg env).subscriptionCreated = true) :
    (run cfg env).maxOutstandingMessages = some pubSubMaxOutstandingMessages ∧
    ∀ n : Nat, SubReach pubSubMaxOutstandingMessages n → n ≤ pubSubMaxOutstandingMessages := by
  constructor
  · rcases env with ⟨fc, tc, fcl, tcl, re⟩
    cases tc <;> cases tcl <;> cases re <;>
      unfold run at h ⊢ <;> split_ifs at h ⊢ <;> simp_all
  · exact fun n hn => subReach_le_bound _ n hn

/-- Witness for the amended C6 at the valid configuration and the environment
whose external calls all succeed. -/
theorem bound_constant_and_delivery_bounded_witness :
    (run validCfg okEnv).maxOutstandingMessages = some pubSubMaxOutstandingMessages ∧
    ∀ n : Nat, SubReach pubSubMaxOutstandingMessages n → n ≤ pubSubMaxOutstandingMessages :=
  bound_constant_and_delivery_bounded validCfg okEnv rfl

/-- An environment in which Receive terminates returning a nil error, as on
cancellation of the receive context. -/
def nilReceiveEnv : Env :=
  ⟨Except.ok (), Except.ok (), Except.ok (), Except.ok (), none⟩

/-- Counterexample to claim C8: when Receive terminates with a nil error, Run
returns normally; the process exits with status zero and no terminal error is
logged, contradicting the claim that every termination of the receive loop is
logged and exits non-zero. -/
theorem receive_nil_normal_return :
    (run validCfg nilReceiveEnv).subscriptionCreated = true ∧
    (run validCfg nilReceiveEnv).outcome = Outcome.normalReturn := by
  decide

/-- Claim C8 amended: Run blocks until Receive terminates; whenever Receive
terminates with a non-nil error, that terminal error is logged fatally and the
process exits non-zero; a nil termination makes Run return normally. -/
theorem receive_error_is_fatal (cfg : Config) (env : Env) (e : String)
    (hs : (run cfg env).subscriptionCreated = true) (he : env.receiveErr = some e) :
    (run cfg env).outcome = Outcome.exitFatal e := by
  rcases env with ⟨fc, tc, fcl, tcl, re⟩
  cases tc <;> cases tcl
  all_goals unfold run at hs ⊢
  all_goals split_ifs at hs ⊢
  all_goals simp_all

/-- Witness for the amended C8 at the valid configuration and an environment
whose Receive ends with an unavailable error. -/
theorem receive_error_is_fatal_witness :
    (run validCfg okEnv).outcome = Outcome.exitFatal "rpc error: code = Unavailable" :=
  receive_error_is_fatal validCfg okEnv "rpc error: code = Unavailable" rfl rfl

/-- Claim C9: for every configuration key the resolved value obeys the stated
precedence: a value given as a command-line flag overrides the value in the
config file, which overrides the registered default; initConfig populates the
Config record from that resolution. -/
theorem flag_overrides_file_overrides_default
    (flagSet fileCfg : String → Option String) (key v w : String) :
    (flagSet key = some v → viperGetString flagSet fileCfg key = v) ∧
    (flagSet key = none → fileCfg key = some w → viperGetString flagSet fileCfg key = w) ∧
    (flagSet key = none → fileCfg key = none →
      viperGetString flagSet fileCfg key = flagDefault key) ∧
    (initConfig flagSet fileCfg).logLevel = viperGetString flagSet fileCfg "log-level" := by
  refine ⟨fun hf => by simp [viperGetString, hf],
    fun hf hg => by simp [viperGetString, hf, hg],
    fun hf hg => by simp [viperGetString, hf, hg], rfl⟩

/-- Witness for C9: a flag set on the command line wins over a config file
value for the same key. -/
theorem flag_overrides_file_overrides_default_witness :
    viperGetString (fun k => if k = "log-level" then some "warn" else none)
      (fun _ => some "trace") "log-level" = "warn" :=
  (flag_overrides_file_overrides_default
    (fun k => if k = "log-level" then some "warn" else none)
    (fun _ => some "trace") "log-level" "warn" "trace").1 (by decide)

/-- Claim C10: SetLogger never fails: an invalid level string logs an error
and sets the level to info, a valid one sets the parsed level, and the
installed formatter does not depend on the level argument. -/
theorem setLogger_level_fallback_formatter_independent (ll ll' lf : String) :
    (∀ e, parseLevel ll = Except.error e →
      (SetLogger ll lf).level = Level.info ∧ (SetLogger ll lf).errorLogs ≠ []) ∧
    (∀ l, parseLevel ll = Except.ok l →
      (SetLogger ll lf).level = l ∧ (SetLogger ll lf).errorLogs = []) ∧
    (SetLogger ll lf).formatter = (SetLogger ll' lf).formatter := by
  refine ⟨fun e he => ?_, fun l hl => ?_, ?_⟩
  · simp [SetLogger, he]
  · simp [SetLogger, hl]
  · cases hp : parseLevel ll <;> cases hp' : parseLevel ll' <;>
      simp [SetLogger, hp, hp']

/-- Witness for C10 at the invalid level string bogus and the json format. -/
theorem setLogger_level_fallback_formatter_independent_witness :
    (SetLogger "bogus" "json").level = Level.info ∧
    (SetLogger "bogus" "json").errorLogs ≠ [] :=
  (setLogger_level_fallback_formatter_independent "bogus" "debug" "json").1
    ("not a valid logrus Level: " ++ "bogus") rfl

end PubsubToPubsub
